import Mathlib

/-!
Verification of the AR placement/session state machine of `src/js/ar-app.js`.

The embedding models the module-level mutable state of the IIFE in
`ar-app.js` as an explicit `AppState` record, and each event handler /
helper function of the source as a state transformer.  Scalar and vector
arithmetic is carried out over `ℚ` (the source uses IEEE doubles, but every
constant appearing in the handlers is a small decimal, so the rational
translation is exact on the inputs considered here).  Asynchronous
acquisition calls (`getUserMedia`, orientation activation, XR session
request) are modelled as emitted `Effect` values, with the platform's
grant/deny response passed in as a `Bool` parameter.
-/

namespace ARApp

/-- A 3-component vector (`THREE.Vector3`), with exact rational components. -/
structure Vec3 where
  x : ℚ
  y : ℚ
  z : ℚ
  deriving DecidableEq

/-- Component-wise addition of vectors. -/
def Vec3.add (a b : Vec3) : Vec3 := ⟨a.x + b.x, a.y + b.y, a.z + b.z⟩

/-- Scalar multiplication of a vector. -/
def Vec3.smul (t : ℚ) (v : Vec3) : Vec3 := ⟨t * v.x, t * v.y, t * v.z⟩

/-- Squared Euclidean distance between two points.  The source compares
`groundPoint.distanceTo(camera.position) < 30`; both sides are nonnegative,
so this is equivalent to comparing the squared distance with `900`, which
keeps the development inside `ℚ`. -/
def distSq (a b : Vec3) : ℚ :=
  (a.x - b.x) ^ 2 + (a.y - b.y) ^ 2 + (a.z - b.z) ^ 2

/-- Squared horizontal (xz-plane) distance between two points. -/
def horizDistSq (a b : Vec3) : ℚ :=
  (a.x - b.x) ^ 2 + (a.z - b.z) ^ 2

/-- Squared Euclidean norm of a vector. -/
def normSq (v : Vec3) : ℚ := v.x ^ 2 + v.y ^ 2 + v.z ^ 2

/-- The ground intersection point computed by `updateFallbackReticle`
(ar-app.js lines 488-493): `t = -camera.position.y / dir.y`,
`groundPoint = (camera.x + dir.x*t, 0, camera.z + dir.z*t)`. -/
def groundPointOf (camPos dir : Vec3) : Vec3 :=
  let t := -camPos.y / dir.y
  ⟨camPos.x + dir.x * t, 0, camPos.z + dir.z * t⟩

/-- `updateFallbackReticle` (ar-app.js lines 483-505), as a pure function of
the camera position, the camera forward direction `dir` (the source derives
it as `(0,0,-1)` rotated by `camera.quaternion`; here it is an input), and
the previous reticle position.  Returns the new reticle position.
The source's `dist < 30` is rendered as `distSq < 900` (see `distSq`). -/
def updateFallbackReticle (camPos dir prev : Vec3) : Vec3 :=
  if dir.y < -(1/100) then
    let groundPoint := groundPointOf camPos dir
    if distSq groundPoint camPos < 900 then groundPoint else prev
  else
    ⟨camPos.x + dir.x * 3, 0, camPos.z + dir.z * 3⟩

/-- The fallback reticle object: its world position, the `visible` flag of
the group, and the `visible` flag of its `reticleLabel` child sprite. -/
structure FallbackReticle where
  pos : Vec3
  visible : Bool
  labelVisible : Bool
  deriving DecidableEq

/-- The WebXR reticle object (`createARReticle`): pose matrix reduced to its
position, plus the `visible` flag. -/
structure ARReticle where
  pos : Vec3
  visible : Bool
  deriving DecidableEq

/-- Asynchronous platform acquisition requests issued by the handlers:
a `getUserMedia` camera-stream request (`startCameraBackground`),
a device-orientation activation attempt (`tryDeviceOrientation`),
and a WebXR session request (`startARSession`). -/
inductive Effect where
  | cameraRequest
  | orientationActivation
  | trackedSessionRequest
  deriving DecidableEq

/-- The module-level mutable state of `ar-app.js`, restricted to the fields
the placement/session state machine reads or writes.  `rotYDeg` holds the
yaw of `pipeGroup` in degrees (the source stores
`THREE.MathUtils.degToRad(angle)` in `pipeGroup.rotation.y`; `degToRad` is
an injective linear map, so equality of poses is faithfully reflected by
equality of the degree values). -/
structure AppState where
  xrSessionActive : Bool
  hitTestSourceActive : Bool
  arReticle : Option ARReticle
  fallbackMode : Bool
  fallbackAnimateRunning : Bool
  fallbackControlsReady : Bool
  fallbackReticle : Option FallbackReticle
  pipePlaced : Bool
  placedPosition : Option Vec3
  pipeGroupPos : Option Vec3
  rotYDeg : ℚ
  distSliderMm : ℚ
  cameraVideo : Bool
  useDeviceOrientation : Bool
  wasDragged : Bool
  btnPlaceDisabled : Bool
  placedMarkers : List Vec3
  deriving DecidableEq

/-- `createFallbackReticle` (ar-app.js lines 440-481): a fresh fallback
reticle at `(0, 0, -3)`, visible, with its label visible. -/
def createFallbackReticle : FallbackReticle :=
  ⟨⟨0, 0, -3⟩, true, true⟩

/-- The effective pose of the placed asset: position of `pipeGroup` plus its
yaw (in degrees, see `AppState.rotYDeg`); `none` when no pipe group exists. -/
def effectivePose (s : AppState) : Option (Vec3 × ℚ) :=
  s.pipeGroupPos.map (fun p => (p, s.rotYDeg))

/-- `placePipe(position)` (ar-app.js lines 666-710): rebuilds the pipe group
at `position` (fresh group, yaw 0), hides the fallback reticle's label and
the AR reticle, sets `pipePlaced`, records `placedPosition`, adds a ground
marker at `position` raised by 1 mm, disables the place button and resets
the distance slider to 0.  Note that `fallbackReticle.visible` itself is not
modified here. -/
def placePipe (position : Vec3) (s : AppState) : AppState :=
  { s with
    pipeGroupPos := some position,
    rotYDeg := 0,
    fallbackReticle := s.fallbackReticle.map (fun r => { r with labelVisible := false }),
    arReticle := s.arReticle.map (fun r => { r with visible := false }),
    pipePlaced := true,
    placedPosition := some position,
    btnPlaceDisabled := true,
    distSliderMm := 0,
    placedMarkers := s.placedMarkers ++ [⟨position.x, position.y + 1/1000, position.z⟩] }

/-- `onARSelect` (ar-app.js lines 647-661): ignored when placed; places at
the reticle pose when the AR reticle is visible; otherwise places at the
default position `(0, -0.5, -1.5)` transformed by `camera.matrixWorld`
(the camera transform is passed in as `camXform`). -/
def onARSelect (camXform : Vec3 → Vec3) (s : AppState) : AppState :=
  if s.pipePlaced then s
  else
    match s.arReticle with
    | some r =>
      if r.visible then placePipe r.pos s
      else placePipe (camXform ⟨0, -(1/2), -(3/2)⟩) s
    | none => placePipe (camXform ⟨0, -(1/2), -(3/2)⟩) s

/-- The `btnPlace` click handler (ar-app.js lines 1097-1102): ignored when
placed; in fallback mode with a fallback reticle, places at the reticle
position; otherwise does nothing. -/
def btnPlaceClick (s : AppState) : AppState :=
  if s.pipePlaced then s
  else if s.fallbackMode then
    match s.fallbackReticle with
    | some r => placePipe r.pos s
    | none => s
  else s

/-- The canvas click handler (ar-app.js lines 1162-1168): ignored outside
fallback mode or when placed; ignored after a drag in pointer mode;
otherwise places at the fallback reticle position. -/
def canvasClick (s : AppState) : AppState :=
  if !s.fallbackMode || s.pipePlaced then s
  else if !s.useDeviceOrientation && s.wasDragged then s
  else
    match s.fallbackReticle with
    | some r => placePipe r.pos s
    | none => s

/-- `startCameraBackground` (ar-app.js lines 411-435): returns immediately
when `cameraVideo` is already set; otherwise issues a `getUserMedia` request
(`Effect.cameraRequest`); on success (`grant = true`) the video element is
created and cached, on failure the state is unchanged (the source only sets
a clear color). -/
def startCameraBackground (grant : Bool) (s : AppState) : AppState × List Effect :=
  if s.cameraVideo then (s, [])
  else if grant then ({ s with cameraVideo := true }, [Effect.cameraRequest])
  else (s, [Effect.cameraRequest])

/-- `startFallbackMode` (ar-app.js lines 264-319): guarded against double
start; enters fallback mode, acquires the camera background, recreates the
fallback reticle, on first entry wires the manual controls and attempts
device-orientation activation, starts the animate loop, and finally hides
the fallback reticle and disables the place button when a pipe is already
placed (re-enabling the button otherwise). -/
def startFallbackMode (grant : Bool) (s : AppState) : AppState × List Effect :=
  if s.fallbackMode && s.fallbackAnimateRunning then (s, [])
  else
    let s1 := { s with fallbackMode := true }
    let r1 := startCameraBackground grant s1
    let s3 := { r1.1 with fallbackReticle := some createFallbackReticle }
    let r2 :=
      if !s3.fallbackControlsReady then
        ({ s3 with fallbackControlsReady := true }, [Effect.orientationActivation])
      else (s3, ([] : List Effect))
    let s5 := { r2.1 with fallbackAnimateRunning := true }
    let s6 :=
      if s5.pipePlaced then
        { s5 with
          fallbackReticle := s5.fallbackReticle.map (fun r => { r with visible := false }),
          btnPlaceDisabled := true }
      else { s5 with btnPlaceDisabled := false }
    (s6, r1.2 ++ r2.2)

/-- The `xrSession` `ended` handler (ar-app.js lines 199-210): clears the
session and hit-test source, stops the XR loop, and hands off to
`startFallbackMode` unless fallback mode is already active. -/
def xrSessionEnded (grant : Bool) (s : AppState) : AppState × List Effect :=
  let s1 := { s with xrSessionActive := false, hitTestSourceActive := false }
  if !s1.fallbackMode then startFallbackMode grant s1 else (s1, [])

/-- The `btnReset` click handler (ar-app.js lines 1120-1159): removes the
pipe group, excavation group and markers, clears the placement flags,
resets both sliders, re-enables the place button, and recreates the
fallback reticle.  It calls none of the acquisition routines, hence the
empty effect list. -/
def btnResetClick (s : AppState) : AppState × List Effect :=
  ({ s with
      pipeGroupPos := none,
      placedMarkers := [],
      pipePlaced := false,
      placedPosition := none,
      btnPlaceDisabled := false,
      rotYDeg := 0,
      distSliderMm := 0,
      fallbackReticle := some createFallbackReticle }, [])

/-- `onXRFrame` (ar-app.js lines 624-645), reticle part: while a hit-test
source exists and no pipe is placed, the first hit's pose (when its
`getPose` is non-null) moves the AR reticle and makes it visible and
re-enables the place button; an empty result list hides the reticle; a null
pose leaves everything unchanged. -/
def onXRFrame (hits : List (Option Vec3)) (s : AppState) : AppState :=
  if s.hitTestSourceActive && !s.pipePlaced then
    match hits with
    | [] => { s with arReticle := s.arReticle.map (fun r => { r with visible := false }) }
    | some p :: _ =>
        { s with
          arReticle := s.arReticle.map (fun r => { r with visible := true, pos := p }),
          btnPlaceDisabled := false }
    | none :: _ => s
  else s

/-- One iteration of the fallback `animate` loop (ar-app.js lines 293-303),
reticle part: the fallback reticle position is updated from the current
camera only when the reticle exists, is visible, and no pipe is placed.
(The orientation-driven camera update only writes the camera, modelled here
by the `camPos`/`camDir` inputs.) -/
def animateTick (camPos camDir : Vec3) (s : AppState) : AppState :=
  match s.fallbackReticle with
  | some r =>
    if r.visible && !s.pipePlaced then
      { s with fallbackReticle := some ({ r with pos := updateFallbackReticle camPos camDir r.pos }) }
    else s
  | none => s

/-- The rotation slider input handler (ar-app.js lines 1037-1042): stores
the yaw angle into `pipeGroup.rotation.y` when a pipe group exists. -/
def rotationSliderInput (angle : ℚ) (s : AppState) : AppState :=
  if s.pipeGroupPos.isSome then { s with rotYDeg := angle } else s

/-- The distance slider input handler (ar-app.js lines 1047-1057):
`dist = value * 0.001` (mm to m); when a pipe group and a placed position
exist, `pipeGroup.position.z = placedPosition.z - dist` — only the world z
coordinate is written, recomputed from the stored base position. -/
def distanceSliderInput (mmValue : ℚ) (s : AppState) : AppState :=
  let dist := mmValue * (1/1000)
  match s.pipeGroupPos, s.placedPosition with
  | some p, some base =>
      { s with distSliderMm := mmValue,
               pipeGroupPos := some ⟨p.x, p.y, base.z - dist⟩ }
  | _, _ => { s with distSliderMm := mmValue }

/-- Modelled from the spec: the spec's Placement formula
`effectivePosition = basePosition + forward(yawOffsetDeg) * (-forwardOffsetMm/1000)`
(spec section 3), taking the yaw-rotated forward direction as an explicit
vector argument.  Stated only to be compared against the source-derived
behaviour (`distanceSliderInput`). -/
def specEffectivePosition (basePosition forwardDir : Vec3) (forwardOffsetMm : ℚ) : Vec3 :=
  Vec3.add basePosition (Vec3.smul (-(forwardOffsetMm / 1000)) forwardDir)

/-- A blank initial state, matching the module-level declarations of
ar-app.js before any session is started. -/
def initState : AppState :=
  { xrSessionActive := false
    hitTestSourceActive := false
    arReticle := none
    fallbackMode := false
    fallbackAnimateRunning := false
    fallbackControlsReady := false
    fallbackReticle := none
    pipePlaced := false
    placedPosition := none
    pipeGroupPos := none
    rotYDeg := 0
    distSliderMm := 0
    cameraVideo := false
    useDeviceOrientation := false
    wasDragged := false
    btnPlaceDisabled := true
    placedMarkers := [] }

/-- A tracked (WebXR) session state holding a committed placement at
`(1, 0, -2)` with yaw 30 degrees. -/
def trackedPlacedState : AppState :=
  { initState with
    xrSessionActive := true
    hitTestSourceActive := true
    arReticle := some ⟨⟨1, 0, -2⟩, false⟩
    pipePlaced := true
    placedPosition := some ⟨1, 0, -2⟩
    pipeGroupPos := some ⟨1, 0, -2⟩
    rotYDeg := 30
    btnPlaceDisabled := true
    placedMarkers := [⟨1, 1/1000, -2⟩] }

/-- A tracked session state whose AR reticle exists but is not visible
(no hit-test result yet) and with no placement committed. -/
def arInvisibleReticleState : AppState :=
  { initState with
    xrSessionActive := true
    hitTestSourceActive := true
    arReticle := some ⟨⟨0, 0, 0⟩, false⟩ }

/-- A fallback-mode state with the reticle aimed and visible, orientation
control active, camera stream acquired, and nothing placed yet. -/
def fallbackAimedState : AppState :=
  { initState with
    fallbackMode := true
    fallbackAnimateRunning := true
    fallbackControlsReady := true
    fallbackReticle := some ⟨⟨0, 0, -3⟩, true, true⟩
    cameraVideo := true
    useDeviceOrientation := true
    btnPlaceDisabled := false }

/-- A fallback-mode state with a placement committed at the origin with
yaw 0 and no forward offset, as in the spec's slider test. -/
def placedOriginState : AppState :=
  { initState with
    fallbackMode := true
    fallbackAnimateRunning := true
    fallbackControlsReady := true
    fallbackReticle := some ⟨⟨0, 0, 0⟩, true, false⟩
    cameraVideo := true
    pipePlaced := true
    placedPosition := some ⟨0, 0, 0⟩
    pipeGroupPos := some ⟨0, 0, 0⟩
    btnPlaceDisabled := true
    placedMarkers := [⟨0, 1/1000, 0⟩] }


/-- Claim C1: when the tracked backend signals `ended` on a session holding
an existing Placement, the state becomes fallback-active with the Placement
preserved — same effective pose (position and yaw) before and after, the
placed flag not reset, and the fallback reticle hidden. -/
theorem handoff_preserves_placement (s : AppState) (grant : Bool)
    (hxr : s.xrSessionActive = true) (hfb : s.fallbackMode = false)
    (hplaced : s.pipePlaced = true) :
    (xrSessionEnded grant s).1.fallbackMode = true ∧
    (xrSessionEnded grant s).1.pipePlaced = true ∧
    (xrSessionEnded grant s).1.placedPosition = s.placedPosition ∧
    effectivePose (xrSessionEnded grant s).1 = effectivePose s ∧
    ((xrSessionEnded grant s).1.fallbackReticle).map FallbackReticle.visible = some false ∧
    (xrSessionEnded grant s).1.xrSessionActive = false := by
  cases grant <;> rcases hcv : s.cameraVideo <;> rcases hfcr : s.fallbackControlsReady <;>
    simp [xrSessionEnded, startFallbackMode, startCameraBackground, effectivePose,
      createFallbackReticle, hfb, hplaced, hcv, hfcr]

/-- Witness for C1: the hand-off applied to a concrete tracked session with
a placement at `(1, 0, -2)`, yaw 30 degrees. -/
theorem handoff_preserves_placement_witness :
    (xrSessionEnded true trackedPlacedState).1.fallbackMode = true ∧
    (xrSessionEnded true trackedPlacedState).1.pipePlaced = true ∧
    (xrSessionEnded true trackedPlacedState).1.placedPosition = trackedPlacedState.placedPosition ∧
    effectivePose (xrSessionEnded true trackedPlacedState).1 = effectivePose trackedPlacedState ∧
    ((xrSessionEnded true trackedPlacedState).1.fallbackReticle).map FallbackReticle.visible = some false ∧
    (xrSessionEnded true trackedPlacedState).1.xrSessionActive = false :=
  handoff_preserves_placement trackedPlacedState true rfl rfl rfl
/-- Counterexample for C2: at `yawOffsetDeg = 90` the yaw-rotated forward
direction is `(\pm 1, 0, 0)` (either handedness), so the spec formula
displaces the asset along the world x axis, while the source handler moves
it along the fixed world z axis only: with `basePosition = (0,0,0)` and
`forwardOffsetMm = 1000` the code yields `(0, 0, -1)`, which differs from
the spec formula under both orientations of `forward(90)`. -/
theorem forward_offset_ignores_yaw :
    (distanceSliderInput 1000 (rotationSliderInput 90 placedOriginState)).pipeGroupPos =
      some ⟨0, 0, -1⟩ ∧
    specEffectivePosition ⟨0, 0, 0⟩ ⟨-1, 0, 0⟩ 1000 = ⟨1, 0, 0⟩ ∧
    specEffectivePosition ⟨0, 0, 0⟩ ⟨1, 0, 0⟩ 1000 = ⟨-1, 0, 0⟩ ∧
    ((⟨0, 0, -1⟩ : Vec3) ≠ ⟨1, 0, 0⟩) ∧ ((⟨0, 0, -1⟩ : Vec3) ≠ ⟨-1, 0, 0⟩) := by
  refine ⟨?_, ?_, ?_, ?_, ?_⟩ <;>
    norm_num [distanceSliderInput, rotationSliderInput, placedOriginState, initState,
      specEffectivePosition, Vec3.add, Vec3.smul, Vec3.mk.injEq]

/-- Claim C2 (amended): the effective position equals
`basePosition + (0, 0, -forwardOffsetMm/1000)` â the forward-offset
displacement is applied along the fixed world z axis, independent of the
placement yaw. -/
theorem forward_offset_world_z (s : AppState) (p base : Vec3) (yaw mmValue : ℚ)
    (hp : s.pipeGroupPos = some p) (hb : s.placedPosition = some base) :
    (distanceSliderInput mmValue (rotationSliderInput yaw s)).pipeGroupPos =
      some ⟨p.x, p.y, base.z - mmValue * (1/1000)⟩ ∧
    (distanceSliderInput mmValue (rotationSliderInput yaw s)).pipeGroupPos =
      (distanceSliderInput mmValue (rotationSliderInput 0 s)).pipeGroupPos := by
  simp [rotationSliderInput, distanceSliderInput, hp, hb]

/-- Witness for C2 (amended), at the origin placement with yaw 90 and a
1000 mm forward offset. -/
theorem forward_offset_world_z_witness :
    (distanceSliderInput 1000 (rotationSliderInput 90 placedOriginState)).pipeGroupPos =
      some ⟨0, 0, 0 - 1000 * (1/1000)⟩ ∧
    (distanceSliderInput 1000 (rotationSliderInput 90 placedOriginState)).pipeGroupPos =
      (distanceSliderInput 1000 (rotationSliderInput 0 placedOriginState)).pipeGroupPos :=
  forward_offset_world_z placedOriginState ⟨0, 0, 0⟩ ⟨0, 0, 0⟩ 90 1000 rfl rfl

/-- Counterexample for C3: in a tracked session whose AR reticle exists but
is not visible (no candidate pose) and with no placement committed, the
`select` action is not ignored — it creates a Placement at the
camera-relative default position `(0, -0.5, -1.5)` (camera transform taken
as the identity here). -/
theorem select_no_candidate_places_default :
    arInvisibleReticleState.pipePlaced = false ∧
    arInvisibleReticleState.placedPosition = none ∧
    (arInvisibleReticleState.arReticle).map ARReticle.visible = some false ∧
    (onARSelect id arInvisibleReticleState).pipePlaced = true ∧
    (onARSelect id arInvisibleReticleState).placedPosition = some ⟨0, -(1/2), -(3/2)⟩ := by
  refine ⟨rfl, rfl, rfl, ?_, ?_⟩ <;>
    simp [onARSelect, placePipe, arInvisibleReticleState, initState]

/-- Claim C3 (amended): with no candidate reticle pose and no placement,
the place-button commit and the fallback canvas tap are silently ignored in
tracked mode, but the tracked-mode `select` action creates a Placement at
the camera-relative default position `(0, -0.5, -1.5)` instead of being
ignored. -/
theorem commit_no_candidate_behavior (s : AppState) (f : Vec3 → Vec3)
    (hnp : s.pipePlaced = false) (hnf : s.fallbackMode = false)
    (hret : (s.arReticle).map ARReticle.visible = some false) :
    btnPlaceClick s = s ∧ canvasClick s = s ∧
    (onARSelect f s).pipePlaced = true ∧
    (onARSelect f s).placedPosition = some (f ⟨0, -(1/2), -(3/2)⟩) := by
  rcases har : s.arReticle with _ | r
  · rw [har] at hret; simp at hret
  · rw [har] at hret
    simp only [Option.map_some', Option.some.injEq] at hret
    refine ⟨?_, ?_, ?_, ?_⟩ <;>
      simp [btnPlaceClick, canvasClick, onARSelect, placePipe, hnp, hnf, har, hret]

/-- Witness for C3 (amended), at the concrete invisible-reticle tracked
state with the identity camera transform. -/
theorem commit_no_candidate_behavior_witness :
    btnPlaceClick arInvisibleReticleState = arInvisibleReticleState ∧
    canvasClick arInvisibleReticleState = arInvisibleReticleState ∧
    (onARSelect id arInvisibleReticleState).pipePlaced = true ∧
    (onARSelect id arInvisibleReticleState).placedPosition = some (id ⟨0, -(1/2), -(3/2)⟩) :=
  commit_no_candidate_behavior arInvisibleReticleState id rfl rfl rfl

/-- Claim C4, evaluated at the failing input: committing a placement from
fallback mode (canvas tap on `fallbackAimedState`) leaves the fallback
reticle's `visible` flag `true` — `placePipe` hides only the reticle label
and the AR reticle — contradicting the claim that the reticle is hidden
once placed.  The frame-update part of the claim does hold (the animate
tick is a no-op on the placed state), and `startFallbackMode`'s own
placed-branch hides the very same reticle, showing the intended invariant. -/
theorem placed_fallback_reticle_stays_visible :
    (canvasClick fallbackAimedState).pipePlaced = true ∧
    ((canvasClick fallbackAimedState).fallbackReticle).map FallbackReticle.visible = some true ∧
    ((canvasClick fallbackAimedState).fallbackReticle).map FallbackReticle.labelVisible = some false ∧
    animateTick ⟨0, 8/5, 0⟩ ⟨0, 0, -1⟩ (canvasClick fallbackAimedState) =
      canvasClick fallbackAimedState ∧
    ((startFallbackMode true
        { canvasClick fallbackAimedState with fallbackAnimateRunning := false }).1.fallbackReticle).map
      FallbackReticle.visible = some false := by
  refine ⟨?_, ?_, ?_, ?_, ?_⟩ <;>
    simp [canvasClick, placePipe, animateTick, startFallbackMode, startCameraBackground,
      createFallbackReticle, fallbackAimedState, initState]

/-- Counterexample for C5: for the unit camera direction `(0, 3/5, -4/5)`
(looking up), the fallback reticle lands at `(0, 0, -12/5)` — its
horizontal distance from the camera is `12/5`, not 3 m, so the candidate
pose is not "exactly 3 m ahead regardless of pitch above level". -/
theorem level_reticle_not_three_m :
    normSq ⟨0, 3/5, -(4/5)⟩ = 1 ∧
    ¬ ((3:ℚ)/5 < -(1/100)) ∧
    updateFallbackReticle ⟨0, 8/5, 0⟩ ⟨0, 3/5, -(4/5)⟩ ⟨0, 0, 0⟩ = ⟨0, 0, -(12/5)⟩ ∧
    horizDistSq ⟨0, 8/5, 0⟩ ⟨0, 0, -(12/5)⟩ = 144/25 ∧
    ((144:ℚ)/25 ≠ 3 ^ 2) := by
  refine ⟨?_, ?_, ?_, ?_, ?_⟩ <;>
    norm_num [normSq, updateFallbackReticle, horizDistSq, Vec3.mk.injEq]

/-- Claim C5 (amended): for a camera looking level or upward
(`D.y ≥ -ε`, ε = 0.01), the reticle candidate is placed at
`camPos + 3·D` with height forced to 0; the horizontal offset from the
camera is `3·(D.x, D.z)`, of squared length `9·(D.x² + D.z²)` — exactly
3 m only for a level direction, shrinking as the pitch above level grows. -/
theorem level_or_up_reticle (camPos dir prev : Vec3) (h : -(1/100) ≤ dir.y) :
    updateFallbackReticle camPos dir prev =
      ⟨camPos.x + dir.x * 3, 0, camPos.z + dir.z * 3⟩ ∧
    horizDistSq camPos (updateFallbackReticle camPos dir prev) =
      9 * (dir.x ^ 2 + dir.z ^ 2) := by
  have hcond : ¬ dir.y < -(1/100) := not_lt.mpr h
  constructor
  · simp only [updateFallbackReticle, if_neg hcond]
  · simp only [updateFallbackReticle, if_neg hcond, horizDistSq]
    ring

/-- Witness for C5 (amended), for a camera at height 8/5 looking up along
`(0, 3/5, -4/5)`. -/
theorem level_or_up_reticle_witness :
    updateFallbackReticle ⟨0, 8/5, 0⟩ ⟨0, 3/5, -(4/5)⟩ ⟨0, 0, 0⟩ =
      ⟨0 + 0 * 3, 0, 0 + -(4/5) * 3⟩ ∧
    horizDistSq ⟨0, 8/5, 0⟩ (updateFallbackReticle ⟨0, 8/5, 0⟩ ⟨0, 3/5, -(4/5)⟩ ⟨0, 0, 0⟩) =
      9 * (0 ^ 2 + (-(4/5)) ^ 2) :=
  level_or_up_reticle ⟨0, 8/5, 0⟩ ⟨0, 3/5, -(4/5)⟩ ⟨0, 0, 0⟩ (by norm_num)

/-- Claim C6: every commit path is idempotent — a second invocation in
direct succession (double-tap) is a no-op — and a double-tap from an
unplaced state adds exactly one ground-marker entry, i.e. exactly one
Placement Store entry is created. -/
theorem double_commit_single_placement (s : AppState) (f : Vec3 → Vec3) :
    onARSelect f (onARSelect f s) = onARSelect f s ∧
    canvasClick (canvasClick s) = canvasClick s ∧
    btnPlaceClick (btnPlaceClick s) = btnPlaceClick s ∧
    (s.pipePlaced = false →
      (onARSelect f (onARSelect f s)).placedMarkers.length = s.placedMarkers.length + 1) := by
  cases hpp : s.pipePlaced <;>
  cases hfm : s.fallbackMode <;>
  cases hudo : s.useDeviceOrientation <;>
  cases hwd : s.wasDragged <;>
  rcases har : s.arReticle with _ | ⟨rp, rv⟩ <;>
  rcases hfr : s.fallbackReticle with _ | q <;>
  first
  | (cases rv <;>
      simp [onARSelect, canvasClick, btnPlaceClick, placePipe, hpp, hfm, hudo, hwd, har, hfr])
  | (simp [onARSelect, canvasClick, btnPlaceClick, placePipe, hpp, hfm, hudo, hwd, har, hfr])

/-- Witness for C6, double-tapping the select action from the aimed
fallback state (no AR reticle, nothing placed). -/
theorem double_commit_single_placement_witness :
    onARSelect id (onARSelect id fallbackAimedState) = onARSelect id fallbackAimedState ∧
    canvasClick (canvasClick fallbackAimedState) = canvasClick fallbackAimedState ∧
    btnPlaceClick (btnPlaceClick fallbackAimedState) = btnPlaceClick fallbackAimedState ∧
    (onARSelect id (onARSelect id fallbackAimedState)).placedMarkers.length =
      fallbackAimedState.placedMarkers.length + 1 := by
  obtain ⟨h1, h2, h3, h4⟩ := double_commit_single_placement fallbackAimedState id
  exact ⟨h1, h2, h3, h4 rfl⟩

/-- Claim C7: while looking downward (`D.y < -ε`, ε = 0.01), the reticle is
moved to the ground intersection `P + D·t`, `t = -P.y/D.y`, exactly when
the intersection lies strictly within 30 m of the camera (squared distance
below 900); at 30 m or more the previous reticle position is kept.  The
last conjunct checks that the computed ground point really is `P + D·t`
(its height is 0 by construction, and `P.y + D.y·t = 0`). -/
theorem downward_reticle (camPos dir prev : Vec3) (h : dir.y < -(1/100)) :
    (distSq (groundPointOf camPos dir) camPos < 900 →
      updateFallbackReticle camPos dir prev = groundPointOf camPos dir) ∧
    (900 ≤ distSq (groundPointOf camPos dir) camPos →
      updateFallbackReticle camPos dir prev = prev) ∧
    camPos.y + dir.y * (-camPos.y / dir.y) = 0 := by
  have hne : dir.y ≠ 0 := by
    intro h0
    rw [h0] at h
    norm_num at h
  refine ⟨?_, ?_, ?_⟩
  · intro hd
    simp only [updateFallbackReticle, if_pos h, if_pos hd]
  · intro hd
    simp only [updateFallbackReticle, if_pos h, if_neg (not_lt.mpr hd)]
  · field_simp
    ring

/-- Witness for C7: camera at height 8/5 looking down along the unit
direction `(0, -3/5, -4/5)`; the ground point is within 30 m, so the
reticle moves there. -/
theorem downward_reticle_witness :
    updateFallbackReticle ⟨0, 8/5, 0⟩ ⟨0, -(3/5), -(4/5)⟩ ⟨7, 0, 7⟩ =
      groundPointOf ⟨0, 8/5, 0⟩ ⟨0, -(3/5), -(4/5)⟩ :=
  (downward_reticle ⟨0, 8/5, 0⟩ ⟨0, -(3/5), -(4/5)⟩ ⟨7, 0, 7⟩ (by norm_num)).1
    (by norm_num [distSq, groundPointOf])

/-- Claim C8: the reset handler destroys the Placement Store entry (placed
flag, base position, pipe group, markers all cleared), recreates the
fallback reticle visible, issues no acquisition request (no camera-stream,
orientation, or tracked-session effect), and leaves the backend state
(camera cache, fallback mode, session flag, orientation mode) untouched;
with the placed flag cleared, the animate tick consumes reticle frame
updates again. -/
theorem reset_clears_without_reacquisition (s : AppState) (camPos camDir : Vec3) :
    (btnResetClick s).1.pipePlaced = false ∧
    (btnResetClick s).1.placedPosition = none ∧
    (btnResetClick s).1.pipeGroupPos = none ∧
    (btnResetClick s).1.placedMarkers = [] ∧
    (btnResetClick s).1.fallbackReticle = some createFallbackReticle ∧
    createFallbackReticle.visible = true ∧
    (btnResetClick s).1.cameraVideo = s.cameraVideo ∧
    (btnResetClick s).1.fallbackMode = s.fallbackMode ∧
    (btnResetClick s).1.xrSessionActive = s.xrSessionActive ∧
    (btnResetClick s).1.useDeviceOrientation = s.useDeviceOrientation ∧
    (btnResetClick s).2 = [] ∧
    animateTick camPos camDir (btnResetClick s).1 =
      { (btnResetClick s).1 with fallbackReticle := some ({ createFallbackReticle with pos := updateFallbackReticle camPos camDir createFallbackReticle.pos }) } := by
  refine ⟨rfl, rfl, rfl, rfl, rfl, rfl, rfl, rfl, rfl, rfl, rfl, ?_⟩
  simp [animateTick, btnResetClick, createFallbackReticle]

/-- Counterexample for C9: a positive forward offset does not move the
asset toward the camera (+Z): on the origin placement, `setForwardOffset(500)`
puts the pipe group at `z = -1/2 < 0`, i.e. along world -Z. -/
theorem positive_offset_moves_minus_z :
    (distanceSliderInput 500 placedOriginState).pipeGroupPos = some ⟨0, 0, -(1/2)⟩ ∧
    (-(1:ℚ)/2) < 0 := by
  constructor
  · norm_num [distanceSliderInput, placedOriginState, initState, Vec3.mk.injEq]
  · norm_num

/-- Claim C9 (amended): forward offsets do not accumulate — only the last
slider value applies, recomputed from the stored base position — and on the
origin placement `setForwardOffset(500)` then `setForwardOffset(-200)`
yields effective `z = 1/5 = 0.2`; a positive offset moves the asset along
world -Z (away from the camera), a negative offset along +Z (toward it). -/
theorem forward_offset_last_value (m1 m2 : ℚ) (hpos : 0 < m1) :
    (distanceSliderInput m2 (distanceSliderInput m1 placedOriginState)).pipeGroupPos =
      some ⟨0, 0, -(m2 * (1/1000))⟩ ∧
    (distanceSliderInput (-200) (distanceSliderInput 500 placedOriginState)).pipeGroupPos =
      some ⟨0, 0, 1/5⟩ ∧
    ((distanceSliderInput m1 placedOriginState).pipeGroupPos).map Vec3.z =
      some (-(m1 * (1/1000))) ∧
    -(m1 * (1/1000)) < 0 := by
  refine ⟨?_, ?_, ?_, ?_⟩
  · simp [distanceSliderInput, placedOriginState, initState]
  · norm_num [distanceSliderInput, placedOriginState, initState, Vec3.mk.injEq]
  · simp [distanceSliderInput, placedOriginState, initState]
  · linarith

/-- Witness for C9 (amended) at the spec's test values 500 then -200. -/
theorem forward_offset_last_value_witness :
    (distanceSliderInput (-200) (distanceSliderInput 500 placedOriginState)).pipeGroupPos =
      some ⟨0, 0, -((-200) * (1/1000))⟩ ∧
    (distanceSliderInput (-200) (distanceSliderInput 500 placedOriginState)).pipeGroupPos =
      some ⟨0, 0, 1/5⟩ ∧
    ((distanceSliderInput 500 placedOriginState).pipeGroupPos).map Vec3.z =
      some (-(500 * (1/1000))) ∧
    -((500:ℚ) * (1/1000)) < 0 :=
  forward_offset_last_value 500 (-200) (by norm_num)

/-- Claim C10: once the camera stream has been acquired (`cameraVideo`
cached), any further call to `startCameraBackground` returns immediately
with the state unchanged and no camera request, and a repeated
tracked-to-fallback hand-off (`startFallbackMode`) emits no camera request
either. -/
theorem camera_acquired_once (s : AppState) (grant : Bool) (h : s.cameraVideo = true) :
    startCameraBackground grant s = (s, []) ∧
    Effect.cameraRequest ∉ (startFallbackMode grant s).2 := by
  constructor
  · simp [startCameraBackground, h]
  · rcases hfm : s.fallbackMode <;> rcases hfar : s.fallbackAnimateRunning <;>
      rcases hfcr : s.fallbackControlsReady <;> rcases hpp : s.pipePlaced <;>
      simp [startFallbackMode, startCameraBackground, h, hfm, hfar, hfcr, hpp]

/-- Witness for C10 at the aimed fallback state, whose camera stream is
already cached. -/
theorem camera_acquired_once_witness :
    startCameraBackground true fallbackAimedState = (fallbackAimedState, []) ∧
    Effect.cameraRequest ∉ (startFallbackMode true fallbackAimedState).2 :=
  camera_acquired_once fallbackAimedState true rfl

end ARApp
